import Mathlib

/-
  Verification development for the rustboy Game Boy emulator.

  Shallow embedding conventions:
  * Rust u8 / u16 / u32 values are Lean Nat; wrapping arithmetic is made
    explicit with `% 256`, `% 65536`, `% 4294967296`.
  * Rust arrays are functions `Nat → Nat` updated pointwise with `updFn`.
  * Code that can panic (`unreachable!()`, `unimplemented!()`, out-of-bounds
    indexing) is embedded with `Option`: `none` models the panic.
  Each definition mirrors one function of the Rust source; the source file
  and function are named in a comment right above it.
-/

set_option maxRecDepth 100000

namespace Rustboy

/-- Pointwise update of a function-modelled array. -/
def updFn (f : Nat → Nat) (i v : Nat) : Nat → Nat :=
  fun j => if j = i then v else f j

/- src/arithmetic.rs, `impl ArithmeticUtil<u8> for u8`. -/

-- fn calc_half_carry(&self, rhs: u8) -> bool
def calcHalfCarryU8 (self rhs : Nat) : Bool :=
  ((self &&& 0x0F) + (rhs &&& 0x0F)) &&& 0x10 == 0x10

-- fn calc_carry(&self, rhs: u8) -> bool
def calcCarryU8 (self rhs : Nat) : Bool :=
  ((self &&& 0x00FF) + (rhs &&& 0x00FF)) &&& 0x0100 == 0x0100

-- fn calc_half_borrow(&self, rhs: u8) -> bool
def calcHalfBorrowU8 (self rhs : Nat) : Bool :=
  (self &&& 0x0F) < (rhs &&& 0x0F)

-- fn calc_borrow(&self, rhs: u8) -> bool
def calcBorrowU8 (self rhs : Nat) : Bool :=
  self < rhs

/- src/arithmetic.rs, `ToSigned` and `AddSigned`. -/

-- fn to_signed_u16(&self) -> u16  (on u8)
def toSignedU16 (self : Nat) : Nat :=
  if self &&& 0x80 = 0 then self else self ||| 0xFF00

-- fn to_unsigned_u16(&self) -> u16  (on u8)
def toUnsignedU16 (self : Nat) : Nat :=
  self

-- fn add_signed_u16(&self, rhs: u16) -> u16  (wrapping_add on u16)
def addSignedU16 (self rhs : Nat) : Nat :=
  (self + rhs) % 65536

/- src/interruption.rs -/

-- enum Peripheral
inductive Peripheral where
  | Joypad
  | Serial
  | Timer
  | LcdStatus
  | VBlank
deriving DecidableEq, Repr

-- impl Peripheral { fn jump_address(&self) -> Address }
def Peripheral.jumpAddress : Peripheral → Nat
  | .Joypad => 0x0060
  | .Serial => 0x0058
  | .Timer => 0x0050
  | .LcdStatus => 0x0048
  | .VBlank => 0x0040

-- struct InterruptEnables (five Bool bits of the IE register)
structure InterruptEnables where
  joypad : Bool
  serial : Bool
  timer : Bool
  lcd_stat : Bool
  v_blank : Bool
deriving DecidableEq, Repr

-- impl From<u8> for InterruptEnables
def InterruptEnables.fromU8 (v : Nat) : InterruptEnables :=
  { joypad := v &&& 0b00010000 == 0b00010000
    serial := v &&& 0b00001000 == 0b00001000
    timer := v &&& 0b00000100 == 0b00000100
    lcd_stat := v &&& 0b00000010 == 0b00000010
    v_blank := v &&& 0b00000001 == 0b00000001 }

-- impl From<InterruptEnables> for u8
def InterruptEnables.toU8 (e : InterruptEnables) : Nat :=
  (if e.joypad then 0b00010000 else 0) |||
  (if e.serial then 0b00001000 else 0) |||
  (if e.timer then 0b00000100 else 0) |||
  (if e.lcd_stat then 0b00000010 else 0) |||
  (if e.v_blank then 0b00000001 else 0)

-- struct InterruptFlags (five Bool bits of the IF register)
structure InterruptFlags where
  joypad : Bool
  serial : Bool
  timer : Bool
  lcd_stat : Bool
  v_blank : Bool
deriving DecidableEq, Repr

-- impl From<u8> for InterruptFlags
def InterruptFlags.fromU8 (v : Nat) : InterruptFlags :=
  { joypad := v &&& 0b00010000 == 0b00010000
    serial := v &&& 0b00001000 == 0b00001000
    timer := v &&& 0b00000100 == 0b00000100
    lcd_stat := v &&& 0b00000010 == 0b00000010
    v_blank := v &&& 0b00000001 == 0b00000001 }

-- impl From<InterruptFlags> for u8
def InterruptFlags.toU8 (fl : InterruptFlags) : Nat :=
  (if fl.joypad then 0b00010000 else 0) |||
  (if fl.serial then 0b00001000 else 0) |||
  (if fl.timer then 0b00000100 else 0) |||
  (if fl.lcd_stat then 0b00000010 else 0) |||
  (if fl.v_blank then 0b00000001 else 0)

-- struct Interruption { interrupts: InterruptFlags, enables: InterruptEnables }
structure Interruption where
  interrupts : InterruptFlags
  enables : InterruptEnables
deriving DecidableEq, Repr

-- Interruption::new()
def Interruption.new : Interruption :=
  { interrupts := InterruptFlags.fromU8 0, enables := InterruptEnables.fromU8 0 }

-- impl IO for Interruption, fn read.  Note that the 0xFFFF arm of the source
-- returns `self.interrupts.into()`.  `unreachable!()` is modelled as `none`.
def Interruption.read (self : Interruption) (address : Nat) : Option Nat :=
  if address = 0xFF0F then some self.interrupts.toU8
  else if address = 0xFFFF then some self.interrupts.toU8
  else none

-- impl IO for Interruption, fn write
def Interruption.write (self : Interruption) (address data : Nat) :
    Option Interruption :=
  if address = 0xFF0F then some { self with interrupts := InterruptFlags.fromU8 data }
  else if address = 0xFFFF then some { self with enables := InterruptEnables.fromU8 data }
  else none

/- src/timer.rs -/

-- CPU::CLOCK (src/cpu.rs): the CPU runs at 4.194304 MHz
def CPU.CLOCK : Nat := 4194304

-- enum TimerStatus
inductive TimerStatus where
  | RUNNING
  | STOPPED
deriving DecidableEq, Repr

-- enum Clock (TAC bit 1-0)
inductive Clock where
  | Hz4096
  | Hz262144
  | Hz65536
  | Hz16384
deriving DecidableEq, Repr

-- impl Clock { fn divide(&self) -> u32 }
def Clock.divide : Clock → Nat
  | .Hz4096 => CPU.CLOCK / 4096
  | .Hz16384 => CPU.CLOCK / 16384
  | .Hz65536 => CPU.CLOCK / 65536
  | .Hz262144 => CPU.CLOCK / 262144

-- struct TAC { status, clock }
structure TAC where
  status : TimerStatus
  clock : Clock
deriving DecidableEq, Repr

-- impl From<u8> for TAC
def TAC.fromU8 (v : Nat) : TAC :=
  { status := if v &&& 0b100 = 0b100 then TimerStatus.RUNNING else TimerStatus.STOPPED
    clock :=
      match v &&& 0b11 with
      | 0b00 => Clock.Hz4096
      | 0b01 => Clock.Hz262144
      | 0b10 => Clock.Hz65536
      | _ => Clock.Hz16384 }

-- impl From<TAC> for u8
def TAC.toU8 (tac : TAC) : Nat :=
  (match tac.status with
   | TimerStatus.RUNNING => 0b100
   | TimerStatus.STOPPED => 0b000) |||
  (match tac.clock with
   | Clock.Hz4096 => 0b00
   | Clock.Hz262144 => 0b01
   | Clock.Hz65536 => 0b10
   | Clock.Hz16384 => 0b11)

-- struct Timer (registers DIV/TIMA/TMA/TAC and the two cycle accumulators).
-- The Rust struct holds a Weak<RefCell<dyn Bus>>; its only bus accesses are
-- read(0xFF0F) and write(0xFF0F, _), which MotherBoard routes to Interruption,
-- so the bus is passed to the stepping functions as an `Interruption` value.
structure Timer where
  div : Nat
  div_tmp : Nat
  tima : Nat
  tima_tmp : Nat
  tma : Nat
  tac : TAC
deriving DecidableEq, Repr

-- Timer::CLOCK_DIV
def Timer.CLOCK_DIV : Nat := 16384

-- Timer::new
def Timer.new : Timer :=
  { div := 0, div_tmp := 0, tima := 0, tima_tmp := 0, tma := 0, tac := TAC.fromU8 0 }

-- fn increment_div(&mut self, cycle: u8)
def Timer.incrementDiv (self : Timer) (cycle : Nat) : Timer :=
  let div_tmp := (self.div_tmp + cycle) % 4294967296
  if div_tmp ≥ CPU.CLOCK / Timer.CLOCK_DIV then
    { self with
        div := (self.div + 1) % 256
        div_tmp := div_tmp - CPU.CLOCK / Timer.CLOCK_DIV }
  else
    { self with div_tmp := div_tmp }

-- fn increment_tima(&mut self, cycle: u8).  The bus read/write of 0xFF0F is
-- Interruption.read / Interruption.write (see Timer above); both succeed at
-- address 0xFF0F, so the `.unwrap()` of the source cannot fail here and the
-- result is total.
def Timer.incrementTima (self : Timer) (bus : Interruption) (cycle : Nat) :
    Timer × Interruption :=
  let tima_tmp := (self.tima_tmp + cycle) % 4294967296
  if tima_tmp ≥ self.tac.clock.divide then
    if calcCarryU8 self.tima 1 then
      let value := (InterruptFlags.toU8 bus.interrupts) ||| 0b00000100
      ({ self with
          tima := self.tma
          tima_tmp := tima_tmp - self.tac.clock.divide },
       { bus with interrupts := InterruptFlags.fromU8 value })
    else
      ({ self with
          tima := (self.tima + 1) % 256
          tima_tmp := tima_tmp - self.tac.clock.divide },
       bus)
  else
    ({ self with tima_tmp := tima_tmp }, bus)

-- pub fn tick(&mut self, cycle: u8)
def Timer.tick (self : Timer) (bus : Interruption) (cycle : Nat) :
    Timer × Interruption :=
  let t := self.incrementDiv cycle
  if t.tac.status = TimerStatus.RUNNING then
    t.incrementTima bus cycle
  else
    (t, bus)

-- impl IO for Timer, fn read
def Timer.ioRead (self : Timer) (address : Nat) : Option Nat :=
  if address = 0xFF04 then some self.div
  else if address = 0xFF05 then some self.tima
  else if address = 0xFF06 then some self.tma
  else if address = 0xFF07 then some self.tac.toU8
  else none

-- impl IO for Timer, fn write
def Timer.ioWrite (self : Timer) (address data : Nat) : Option Timer :=
  if address = 0xFF04 then some { self with div := 0 }
  else if address = 0xFF05 then some { self with tima := data }
  else if address = 0xFF06 then some { self with tma := data }
  else if address = 0xFF07 then some { self with tac := TAC.fromU8 data }
  else none

/- src/cartridges/mbc1.rs -/

-- enum BankMode
inductive BankMode where
  | Rom
  | Ram
deriving DecidableEq, Repr

-- enum RamMode
inductive RamMode where
  | Disable
  | Enable
deriving DecidableEq, Repr

-- struct Mbc1.  rom_banks / ram_banks are Vec<[u8; _]>; they are modelled as
-- a bank count plus a total lookup function, and Vec indexing out of bounds
-- (a Rust panic) is modelled as `none`.
structure Mbc1 where
  num_rom_banks : Nat
  rom_banks : Nat → Nat → Nat
  num_ram_banks : Nat
  ram_banks : Nat → Nat → Nat
  current_rom_bank : Nat
  current_ram_bank : Nat
  bank_mode : BankMode
  ram_mode : RamMode

-- Mbc1::new(banks, ram_size)
def Mbc1.new (numRom : Nat) (rom : Nat → Nat → Nat) (numRam : Nat) : Mbc1 :=
  { num_rom_banks := numRom
    rom_banks := rom
    num_ram_banks := numRam
    ram_banks := fun _ _ => 0
    current_rom_bank := 1
    current_ram_bank := if numRam > 0 then 1 else 0
    bank_mode := BankMode.Rom
    ram_mode := RamMode.Disable }

-- impl Mbc for Mbc1, fn read
def Mbc1.read (self : Mbc1) (address : Nat) : Option Nat :=
  if address ≤ 0x3FFF then
    if 0 < self.num_rom_banks then some (self.rom_banks 0 address) else none
  else if address ≤ 0x7FFF then
    if self.current_rom_bank < self.num_rom_banks then
      some (self.rom_banks self.current_rom_bank (address - 0x4000))
    else none
  else if 0xA000 ≤ address ∧ address ≤ 0xBFFF then
    if self.current_ram_bank > 0 then
      if self.current_ram_bank < self.num_ram_banks then
        some (self.ram_banks self.current_ram_bank (address - 0xA000))
      else none
    else some 0
  else none

-- impl Mbc for Mbc1, fn write.  The 0x4000-0x5FFF arm in ROM-banking mode
-- matches `data & 0x3` against the hexadecimal literals 0x00, 0x01, 0x10, 0x11;
-- `unimplemented!()` and `unreachable!()` are modelled as `none`.
def Mbc1.write (self : Mbc1) (address data : Nat) : Option Mbc1 :=
  if address ≤ 0x1FFF then
    if data &&& 0x0F = 0x0A then
      some { self with ram_mode := RamMode.Enable }
    else
      some { self with ram_mode := RamMode.Disable }
  else if address ≤ 0x3FFF then
    let mask := data &&& 0x1F
    some { self with
            current_rom_bank := (self.current_rom_bank &&& 0b1100000) ||| (mask &&& 0x7F) }
  else if address ≤ 0x5FFF then
    match self.bank_mode with
    | BankMode.Rom =>
        if data &&& 0x3 = 0x00 then
          some { self with current_rom_bank := self.current_rom_bank &&& 0b0011111 }
        else if data &&& 0x3 = 0x01 then
          some { self with
                  current_rom_bank := (self.current_rom_bank &&& 0b1011111) ||| 0b0100000 }
        else if data &&& 0x3 = 0x10 then
          some { self with
                  current_rom_bank := (self.current_rom_bank &&& 0b0111111) ||| 0b1000000 }
        else if data &&& 0x3 = 0x11 then
          some { self with current_rom_bank := self.current_rom_bank ||| 0b1100000 }
        else none
    | BankMode.Ram =>
        some { self with current_ram_bank := data &&& 0x03 }
  else if address ≤ 0x7FFF then
    if data &&& 0x1 = 0 then
      some { self with bank_mode := BankMode.Rom }
    else
      some { self with bank_mode := BankMode.Ram }
  else if 0xA000 ≤ address ∧ address ≤ 0xBFFF then
    match self.ram_mode with
    | RamMode.Enable =>
        if self.current_ram_bank < self.num_ram_banks then
          some { self with
                  ram_banks := fun b i =>
                    if b = self.current_ram_bank ∧ i = address - 0xA000 then data
                    else self.ram_banks b i }
        else none
    | RamMode.Disable => some self
  else none

/- src/ppu.rs -/

-- RGBA pixel: struct PixelData(pub u8, pub u8, pub u8, pub u8)
structure PixelData where
  r : Nat
  g : Nat
  b : Nat
  a : Nat
deriving DecidableEq, Repr

def WHITE : PixelData := ⟨255, 255, 255, 0⟩
def LIGHT_GRAY : PixelData := ⟨170, 170, 170, 0⟩
def DARK_GRAY : PixelData := ⟨85, 85, 85, 0⟩
def BLACK : PixelData := ⟨0, 0, 0, 0⟩

def WIDTH_LCD : Nat := 160
def HEIGHT_LCD : Nat := 144
def WIDTH_TILE : Nat := 8
def HEIGHT_TILE : Nat := 8

-- enum TileDataSelect
inductive TileDataSelect where
  | Method8000
  | Method8800
deriving DecidableEq, Repr

-- enum TileMapSelect
inductive TileMapSelect where
  | Method9C00
  | Method9800
deriving DecidableEq, Repr

-- impl From<TileMapSelect> for Address
def TileMapSelect.toAddress (v : TileMapSelect) : Nat :=
  if v = TileMapSelect.Method9C00 then 0x9C00 else 0x9800

-- enum SpriteSize
inductive SpriteSize where
  | Normal
  | Tall
deriving DecidableEq, Repr

-- impl From<SpriteSize> for u16
def SpriteSize.toU16 (v : SpriteSize) : Nat :=
  if v = SpriteSize.Tall then 16 else 8

-- enum Color
inductive Color where
  | White
  | LightGray
  | DarkGray
  | Black
deriving DecidableEq, Repr

-- fn to_rgba(&self) -> PixelData
def Color.toRgba : Color → PixelData
  | .White => WHITE
  | .LightGray => LIGHT_GRAY
  | .DarkGray => DARK_GRAY
  | .Black => BLACK

-- struct Pixel
structure Pixel where
  color : Color
  palette : Nat
  background_priority : Bool
deriving DecidableEq, Repr

-- struct TileLine { low: u8, high: u8 }
structure TileLine where
  low : Nat
  high : Nat
deriving DecidableEq, Repr

-- impl IntoIterator for TileLine (8 colors, bit 7 first; the `_` arm covers
-- the (1,1) case, the other bit values cannot occur after `& 0b1`)
def TileLine.colors (self : TileLine) : List Color :=
  (List.range 8).reverse.map fun offset =>
    match (self.low >>> offset) &&& 0b1, (self.high >>> offset) &&& 0b1 with
    | 0, 0 => Color.White
    | 1, 0 => Color.LightGray
    | 0, 1 => Color.DarkGray
    | _, _ => Color.Black

-- struct LcdControl
structure LcdControl where
  lcd_enable : Bool
  window_tile_map_select : TileMapSelect
  window_enable : Bool
  tile_data_select : TileDataSelect
  bg_tile_map_select : TileMapSelect
  sprite_size : SpriteSize
  sprite_enable : Bool
  bg_win_enable : Bool
deriving DecidableEq, Repr

-- impl From<u8> for LcdControl
def LcdControl.fromU8 (v : Nat) : LcdControl :=
  { lcd_enable := v &&& 0b10000000 == 0b10000000
    window_tile_map_select :=
      if v &&& 0b01000000 = 0b01000000 then TileMapSelect.Method9C00
      else TileMapSelect.Method9800
    window_enable := v &&& 0b00100000 == 0b00100000
    tile_data_select :=
      if v &&& 0b00010000 = 0b00010000 then TileDataSelect.Method8000
      else TileDataSelect.Method8800
    bg_tile_map_select :=
      if v &&& 0b00001000 = 0b00001000 then TileMapSelect.Method9C00
      else TileMapSelect.Method9800
    sprite_size :=
      if v &&& 0b00000100 = 0b00000100 then SpriteSize.Tall else SpriteSize.Normal
    sprite_enable := v &&& 0b00000010 == 0b00000010
    bg_win_enable := v &&& 0b00000001 == 0b00000001 }

-- impl From<LcdControl> for u8
def LcdControl.toU8 (lcdc : LcdControl) : Nat :=
  (if lcdc.lcd_enable then 0b10000000 else 0) |||
  (if lcdc.window_tile_map_select = TileMapSelect.Method9C00 then 0b01000000 else 0) |||
  (if lcdc.window_enable then 0b00100000 else 0) |||
  (if lcdc.tile_data_select = TileDataSelect.Method8000 then 0b00010000 else 0) |||
  (if lcdc.bg_tile_map_select = TileMapSelect.Method9C00 then 0b00001000 else 0) |||
  (if lcdc.sprite_size = SpriteSize.Tall then 0b00000100 else 0) |||
  (if lcdc.sprite_enable then 0b00000010 else 0) |||
  (if lcdc.bg_win_enable then 0b00000001 else 0)

-- struct Sprite
structure Sprite where
  y_position : Nat
  x_position : Nat
  tile_number : Nat
  flags : Nat
deriving DecidableEq, Repr

-- Sprite::BASE_ADDRESS
def Sprite.BASE_ADDRESS : Nat := 0x8000

-- Sprite::new(bytes, ly, lcdc): the slice always has length 4 here
def Sprite.new (b0 b1 b2 b3 ly : Nat) (lcdc : LcdControl) : Option Sprite :=
  let sprite : Sprite :=
    { y_position := b0, x_position := b1, tile_number := b2, flags := b3 }
  if sprite.x_position ≤ 0 ∨ 168 < sprite.x_position then none
  else if ly + 16 < sprite.y_position then none
  else if ly + 16 ≥ sprite.y_position + lcdc.sprite_size.toU16 then none
  else some sprite

-- Sprite::oam_scan: iterate the 40 four-byte OAM chunks in order, keeping at
-- most 10 sprites (the source `break`s right after pushing the 10th).
-- The countdown argument `n` counts the remaining chunks (starts at 40).
def Sprite.oamScanGo (oam : Nat → Nat) (ly : Nat) (lcdc : LcdControl) :
    Nat → Nat → List Sprite → List Sprite
  | 0, _, acc => acc
  | n + 1, i, acc =>
      match Sprite.new (oam (4 * i)) (oam (4 * i + 1)) (oam (4 * i + 2))
          (oam (4 * i + 3)) ly lcdc with
      | some sprite =>
          let acc := acc ++ [sprite]
          if acc.length ≥ 10 then acc
          else Sprite.oamScanGo oam ly lcdc n (i + 1) acc
      | none => Sprite.oamScanGo oam ly lcdc n (i + 1) acc

def Sprite.oamScan (oam : Nat → Nat) (ly : Nat) (lcdc : LcdControl) : List Sprite :=
  Sprite.oamScanGo oam ly lcdc 40 0 []

-- fn tile_address(&self, ly: u16, scy: u16) -> Address
def Sprite.tileAddress (self : Sprite) (ly scy : Nat) : Nat :=
  let base_address :=
    Sprite.BASE_ADDRESS + (toUnsignedU16 self.tile_number * 16) % 65536
  let offset := 2 * ((ly + scy) % HEIGHT_TILE)
  base_address + offset

-- The 144 x 160 frame buffer, modelled as a function from (row, column).
def FrameBuffer : Type := Nat → Nat → PixelData

-- Indexing assignment `frame_buffer[ly][rx] = v`: out-of-bounds is a Rust
-- panic, modelled as `none`.
def FrameBuffer.write (fb : FrameBuffer) (ly rx : Nat) (v : PixelData) :
    Option FrameBuffer :=
  if ly < HEIGHT_LCD ∧ rx < WIDTH_LCD then
    some (fun i j => if i = ly ∧ j = rx then v else fb i j)
  else none

-- struct PPU (the `lcd` terminal handle and the bus reference are omitted;
-- the bus is passed explicitly where the source uses it, i.e. OAM DMA).
structure PPU where
  clock : Nat
  clock_next_target : Nat
  frame_buffer : FrameBuffer
  oam : Nat → Nat
  vram : Nat → Nat
  fifo_background : List Pixel
  fifo_sprite : List Pixel
  lcdc : LcdControl
  stat : Nat
  scy : Nat
  scx : Nat
  ly : Nat
  lyc : Nat
  bgp : Nat
  obp0 : Nat
  obp1 : Nat
  wy : Nat
  wx : Nat

-- PPU::new
def PPU.new : PPU :=
  { clock := 0
    clock_next_target := 456
    frame_buffer := fun _ _ => WHITE
    oam := fun _ => 0
    vram := fun _ => 0
    lcdc := LcdControl.fromU8 0
    stat := 0, scy := 0, scx := 0, ly := 0, lyc := 0
    bgp := 0, obp0 := 0, obp1 := 0, wy := 0, wx := 0
    fifo_background := []
    fifo_sprite := [] }

-- impl IO for PPU, fn read
def PPU.ioRead (self : PPU) (address : Nat) : Option Nat :=
  if 0xFE00 ≤ address ∧ address ≤ 0xFE9F then
    some (self.oam (address - 0xFE00))
  else if 0x8000 ≤ address ∧ address ≤ 0x9FFF then
    some (self.vram (address - 0x8000))
  else if 0xFF40 ≤ address ∧ address ≤ 0xFF4B then
    if address = 0xFF40 then some self.lcdc.toU8
    else if address = 0xFF41 then some self.stat
    else if address = 0xFF42 then some self.scy
    else if address = 0xFF43 then some self.scx
    else if address = 0xFF44 then some self.ly
    else if address = 0xFF45 then some self.lyc
    else if address = 0xFF47 then some self.bgp
    else if address = 0xFF48 then some self.obp0
    else if address = 0xFF49 then some self.obp1
    else if address = 0xFF4A then some self.wy
    else if address = 0xFF4B then some self.wx
    else none
  else none

-- The OAM DMA loop of `write` at 0xFF46: copies the 160 bytes at
-- src_start..=src_start+0x9F from the bus into OAM.
def PPU.dmaLoop (busRead : Nat → Option Nat) (src_start : Nat) :
    Nat → Nat → (Nat → Nat) → Option (Nat → Nat)
  | 0, _, oam => some oam
  | n + 1, a, oam =>
      match busRead a with
      | none => none
      | some data =>
          PPU.dmaLoop busRead src_start n (a + 1) (updFn oam (a - src_start) data)

-- impl IO for PPU, fn write
def PPU.ioWrite (busRead : Nat → Option Nat) (self : PPU) (address data : Nat) :
    Option PPU :=
  if 0xFE00 ≤ address ∧ address ≤ 0xFE9F then
    some { self with oam := updFn self.oam (address - 0xFE00) data }
  else if 0x8000 ≤ address ∧ address ≤ 0x9FFF then
    some { self with vram := updFn self.vram (address - 0x8000) data }
  else if 0xFF40 ≤ address ∧ address ≤ 0xFF4B then
    if address = 0xFF40 then some { self with lcdc := LcdControl.fromU8 data }
    else if address = 0xFF41 then some { self with stat := data }
    else if address = 0xFF42 then some { self with scy := data }
    else if address = 0xFF43 then some { self with scx := data }
    else if address = 0xFF44 then some { self with ly := data }
    else if address = 0xFF45 then some { self with lyc := data }
    else if address = 0xFF46 then
      let src_start := (data <<< 8) % 65536
      match PPU.dmaLoop busRead src_start 160 src_start self.oam with
      | none => none
      | some oam => some { self with oam := oam }
    else if address = 0xFF47 then some { self with bgp := data }
    else if address = 0xFF48 then some { self with obp0 := data }
    else if address = 0xFF49 then some { self with obp1 := data }
    else if address = 0xFF4A then some { self with wy := data }
    else if address = 0xFF4B then some { self with wx := data }
    else none
  else none

-- fn tile_number_address(base_address, ly, rx, scx, scy) -> Address
def tileNumberAddress (base_address ly rx scx scy : Nat) : Nat :=
  let offset_x := rx / WIDTH_TILE + ((scx / WIDTH_TILE) &&& 0x001F)
  let offset_y := 32 * (((ly + scy) &&& 0xFF) / HEIGHT_TILE)
  base_address + ((offset_x + offset_y) &&& 0x03FF)

-- fn tile_number_to_address(tile_number, method, ly, scy) -> Address
def tileNumberToAddress (tile_number : Nat) (method : TileDataSelect)
    (ly scy : Nat) : Nat :=
  let base_address :=
    match method with
    | TileDataSelect.Method8000 =>
        0x8000 + (toUnsignedU16 tile_number * 16) % 65536
    | TileDataSelect.Method8800 =>
        addSignedU16 0x9000 ((toSignedU16 tile_number * 16) % 65536)
  let offset := 2 * ((ly + scy) % HEIGHT_TILE)
  base_address + offset

-- fn fetch_bg_tile_number(&self, ly: u16, rx: u16) -> u8
def PPU.fetchBgTileNumber (self : PPU) (ly rx : Nat) : Option Nat :=
  self.ioRead
    (tileNumberAddress self.lcdc.bg_tile_map_select.toAddress ly rx self.scx self.scy)

-- fn fetch_bg_tile_data(&self, tile_number: u8, ly: u16) -> TileLine
def PPU.fetchBgTileData (self : PPU) (tile_number ly : Nat) : Option TileLine :=
  let address := tileNumberToAddress tile_number self.lcdc.tile_data_select ly self.scy
  match self.ioRead address, self.ioRead (address + 1) with
  | some low, some high => some { low := low, high := high }
  | _, _ => none

-- fn push_bg_fifo(&mut self, tile_line: TileLine)
def PPU.pushBgFifo (self : PPU) (tile_line : TileLine) : PPU :=
  { self with
      fifo_background :=
        self.fifo_background ++ tile_line.colors.map fun color =>
          { color := color, palette := self.obp0, background_priority := false } }

-- The sprite section of scan_line's loop body: for each buffered sprite with
-- x_position <= rx + 8, read its tile line and push 8 pixels to fifo_sprite.
def PPU.spriteFifoFill (self : PPU) (rx : Nat) :
    List Sprite → List Pixel → Option (List Pixel)
  | [], fifo => some fifo
  | sprite :: rest, fifo =>
      if sprite.x_position ≤ rx + 8 then
        let address := sprite.tileAddress self.ly self.scy
        match self.ioRead address, self.ioRead (address + 1) with
        | some low, some high =>
            let tile_line : TileLine := { low := low, high := high }
            self.spriteFifoFill rx rest
              (fifo ++ tile_line.colors.map fun color =>
                { color := color
                  palette := self.obp0
                  background_priority := (sprite.flags >>> 7) == 0b1 })
        | _, _ => none
      else
        self.spriteFifoFill rx rest fifo

-- The `while self.fifo_background.len() > 0` push-to-LCD loop of scan_line.
-- Besides the mutated state it returns a ghost trace with one Bool per popped
-- background pixel: `true` if the pixel was written to the frame buffer,
-- `false` if it was discarded by the `discarded` counter.
def PPU.pushToLcdLoop (ly : Nat) :
    List Pixel → List Pixel → Nat → FrameBuffer → Nat → List Bool →
    Option (FrameBuffer × List Pixel × Nat × List Bool)
  | [], fifoSp, _, fb, rx, trace => some (fb, fifoSp, rx, trace)
  | bg_pixel :: fifoBg, fifoSp, discarded, fb, rx, trace =>
      let popped : Option Pixel × List Pixel :=
        match fifoSp with
        | [] => (none, [])
        | sp :: rest => (some sp, rest)
      let pixel :=
        match popped.1 with
        | some sp_pixel =>
            if sp_pixel.color = Color.White then bg_pixel
            else if sp_pixel.background_priority ∧ bg_pixel.color ≠ Color.White then
              bg_pixel
            else sp_pixel
        | none => bg_pixel
      if 0 < discarded then
        PPU.pushToLcdLoop ly fifoBg popped.2 (discarded - 1) fb rx (trace ++ [false])
      else
        match fb.write ly rx pixel.color.toRgba with
        | none => none
        | some fb2 =>
            PPU.pushToLcdLoop ly fifoBg popped.2 discarded fb2 (rx + 1) (trace ++ [true])

-- The body of scan_line's `loop`, iterated with explicit fuel (`none` on fuel
-- exhaustion; the source loop terminates because rx strictly increases).
def PPU.scanLineLoop (ly : Nat) :
    Nat → PPU → Nat → List Bool → Option (PPU × List Bool)
  | 0, _, _, _ => none
  | fuel + 1, p, rx, trace =>
      if rx ≥ WIDTH_LCD - 1 then some (p, trace)
      else
        -- mode 2: OAM Scan
        let sprite_buffer := Sprite.oamScan p.oam p.ly p.lcdc
        -- mode 3: Drawing
        match p.spriteFifoFill rx sprite_buffer p.fifo_sprite with
        | none => none
        | some fifoSp =>
          let p := { p with fifo_sprite := fifoSp }
          match p.fetchBgTileNumber ly rx with
          | none => none
          | some tile_number =>
            match p.fetchBgTileData tile_number ly with
            | none => none
            | some tile_data =>
              let p := if p.fifo_background.isEmpty then p.pushBgFifo tile_data else p
              if !p.fifo_background.isEmpty then
                let discarded := p.scx % 8
                match PPU.pushToLcdLoop ly p.fifo_background p.fifo_sprite discarded
                    p.frame_buffer rx trace with
                | none => none
                | some (fb, fifoSp2, rx2, trace2) =>
                    PPU.scanLineLoop ly fuel
                      { p with
                          frame_buffer := fb
                          fifo_background := []
                          fifo_sprite := fifoSp2 }
                      rx2 trace2
              else
                PPU.scanLineLoop ly fuel p rx trace

-- fn scan_line(&mut self, ly: u16): returns the mutated PPU and the ghost
-- trace of push-to-LCD events (one Bool per popped background pixel).
def PPU.scanLine (self : PPU) (ly : Nat) : Option (PPU × List Bool) :=
  if self.ly ≥ HEIGHT_LCD then some (self, [])
  else PPU.scanLineLoop ly 200 self 0 []

/- src/joypad.rs -/

-- enum Status
inductive JoypadStatus where
  | Selected
  | Unselected
deriving DecidableEq, Repr

-- impl From<bool> for Status
def JoypadStatus.fromBool (v : Bool) : JoypadStatus :=
  if v then JoypadStatus.Unselected else JoypadStatus.Selected

-- struct Buttons
structure Buttons where
  button : JoypadStatus
  direction : JoypadStatus
  down_start : JoypadStatus
  up_select : JoypadStatus
  left_b : JoypadStatus
  right_a : JoypadStatus
deriving DecidableEq, Repr

-- impl From<u8> for Buttons
def Buttons.fromU8 (v : Nat) : Buttons :=
  { button := JoypadStatus.fromBool (v &&& 0b00100000 == 0b00100000)
    direction := JoypadStatus.fromBool (v &&& 0b00010000 == 0b00010000)
    down_start := JoypadStatus.fromBool (v &&& 0b00001000 == 0b00001000)
    up_select := JoypadStatus.fromBool (v &&& 0b00000100 == 0b00000100)
    left_b := JoypadStatus.fromBool (v &&& 0b00000010 == 0b00000010)
    right_a := JoypadStatus.fromBool (v &&& 0b00000001 == 0b00000001) }

-- impl From<Buttons> for u8
def Buttons.toU8 (buttons : Buttons) : Nat :=
  let v := 0b00111111
  let v := if buttons.button = JoypadStatus.Selected then v &&& 0b00011111 else v
  let v := if buttons.direction = JoypadStatus.Selected then v &&& 0b00101111 else v
  let v := if buttons.down_start = JoypadStatus.Selected then v &&& 0b00110111 else v
  let v := if buttons.up_select = JoypadStatus.Selected then v &&& 0b00111011 else v
  let v := if buttons.left_b = JoypadStatus.Selected then v &&& 0b00111101 else v
  let v := if buttons.right_a = JoypadStatus.Selected then v &&& 0b00111110 else v
  v

-- struct JoyPad, with the stdin reader channel modelled as having no pending
-- input, so handle_key_event takes the `c == '\0'` path: Ok(data | 0x0F).
structure JoyPad where
  buttons : Buttons
deriving DecidableEq, Repr

-- JoyPad::new
def JoyPad.new : JoyPad :=
  { buttons := Buttons.fromU8 0b00111111 }

-- impl IO for JoyPad, fn read (no pending key: returns buttons | 0x0F)
def JoyPad.read (self : JoyPad) : Nat :=
  self.buttons.toU8 ||| 0x0F

-- impl IO for JoyPad, fn write
def JoyPad.write (self : JoyPad) (data : Nat) : JoyPad :=
  { self with buttons := Buttons.fromU8 data }

/- src/mother_board.rs -/

-- struct MotherBoard.  The cartridge is a Box<dyn Mbc>; the system here is
-- instantiated with an Mbc1 cartridge (Cartridge::create_mbc).  Sound has no
-- state (reads return 0, writes are dropped).
structure MotherBoard where
  cartridge : Mbc1
  ram : Nat → Nat
  stack : Nat → Nat
  ppu : PPU
  interruption : Interruption
  timer : Timer
  joypad : JoyPad

-- impl Bus for MotherBoard, fn read (arms in source order; `unreachable!()`
-- is `none`; the 0xE000-0xFDFF echo arm recurses at address - 0x2000, which
-- lands in the 0xC000-0xDFFF arm, so a recursion budget of one echo step
-- suffices; the budget is spent only by that arm).
def MotherBoard.readGo (self : MotherBoard) (fuel address : Nat) : Option Nat :=
    if address ≤ 0x7FFF then self.cartridge.read address
    else if address ≤ 0x9FFF then self.ppu.ioRead address
    else if address ≤ 0xBFFF then self.cartridge.read address
    else if address ≤ 0xDFFF then some (self.ram (address - 0xC000))
    else if address ≤ 0xFDFF then
      match fuel with
      | 0 => none
      | f + 1 => self.readGo f (address - 0x2000)
    else if address = 0xFF0F then self.interruption.read address
    else if address = 0xFFFF then self.interruption.read address
    else if address = 0xFF00 then some self.joypad.read
    else if 0xFE00 ≤ address ∧ address ≤ 0xFE9F then self.ppu.ioRead address
    else if 0xFF05 ≤ address ∧ address ≤ 0xFF07 then self.timer.ioRead address
    else if 0xFF10 ≤ address ∧ address ≤ 0xFF3F then some 0
    else if 0xFF40 ≤ address ∧ address ≤ 0xFF4B then self.ppu.ioRead address
    else if 0xFF80 ≤ address ∧ address ≤ 0xFFFE then some (self.stack (address - 0xFF80))
    else none

def MotherBoard.read (self : MotherBoard) (address : Nat) : Option Nat :=
  self.readGo 1 address

-- impl Bus for MotherBoard, fn write (arms in source order; the echo arm
-- recurses once, with the same fuel convention as readGo).  The PPU write
-- arm hands the PPU the bus reads of the current state for OAM DMA.
def MotherBoard.writeGo (self : MotherBoard) (fuel address data : Nat) :
    Option MotherBoard :=
  if address ≤ 0x7FFF then
    (self.cartridge.write address data).map fun cart => { self with cartridge := cart }
  else if address ≤ 0x9FFF then
    (PPU.ioWrite self.read self.ppu address data).map fun ppu => { self with ppu := ppu }
  else if address ≤ 0xBFFF then
    (self.cartridge.write address data).map fun cart => { self with cartridge := cart }
  else if address ≤ 0xDFFF then
    some { self with ram := updFn self.ram (address - 0xC000) data }
  else if address ≤ 0xFDFF then
    match fuel with
    | 0 => none
    | f + 1 => self.writeGo f (address - 0x2000) data
  else if address = 0xFF0F then
    (self.interruption.write address data).map fun i => { self with interruption := i }
  else if address = 0xFFFF then
    (self.interruption.write address data).map fun i => { self with interruption := i }
  else if 0xFE00 ≤ address ∧ address ≤ 0xFE9F then
    (PPU.ioWrite self.read self.ppu address data).map fun ppu => { self with ppu := ppu }
  else if address = 0xFF00 then
    some { self with joypad := self.joypad.write data }
  else if 0xFF05 ≤ address ∧ address ≤ 0xFF07 then
    (self.timer.ioWrite address data).map fun t => { self with timer := t }
  else if 0xFF10 ≤ address ∧ address ≤ 0xFF3F then some self
  else if 0xFF40 ≤ address ∧ address ≤ 0xFF4B then
    (PPU.ioWrite self.read self.ppu address data).map fun ppu => { self with ppu := ppu }
  else if 0xFF80 ≤ address ∧ address ≤ 0xFFFE then
    some { self with stack := updFn self.stack (address - 0xFF80) data }
  else none

def MotherBoard.write (self : MotherBoard) (address data : Nat) :
    Option MotherBoard :=
  self.writeGo 1 address data

/- src/cpu.rs -/

-- 16-bit wrapping helpers (u16 wrapping_add / wrapping_sub, rhs < 65536)
def wadd16 (x y : Nat) : Nat := (x + y) % 65536

def wsub16 (x y : Nat) : Nat := (x + 65536 - y % 65536) % 65536

-- struct Flags
structure Flags where
  z : Bool
  n : Bool
  h : Bool
  c : Bool
deriving DecidableEq, Repr

-- impl From<u8> for Flags
def Flags.fromU8 (v : Nat) : Flags :=
  { z := v &&& 0b10000000 == 0b10000000
    n := v &&& 0b01000000 == 0b01000000
    h := v &&& 0b00100000 == 0b00100000
    c := v &&& 0b00010000 == 0b00010000 }

-- impl From<Flags> for u8
def Flags.toU8 (flags : Flags) : Nat :=
  (if flags.z then 0b10000000 else 0b00000000) |||
  (if flags.n then 0b01000000 else 0) |||
  (if flags.h then 0b00100000 else 0) |||
  (if flags.c then 0b00010000 else 0)

-- struct Registers
structure Registers where
  a : Nat
  f : Flags
  b : Nat
  c : Nat
  d : Nat
  e : Nat
  h : Nat
  l : Nat
  sp : Nat
  pc : Nat
deriving DecidableEq, Repr

-- Registers::new
def Registers.new : Registers :=
  { a := 0x01, f := Flags.fromU8 0xB0, b := 0x00, c := 0x13, d := 0x00
    e := 0xD8, h := 0x01, l := 0x4D, sp := 0xFFFF, pc := 0x0100 }

-- fn bc(&self) -> u16
def Registers.bc (self : Registers) : Nat := (self.b <<< 8) ||| self.c

-- fn set_bc(&mut self, v: u16)
def Registers.setBc (self : Registers) (v : Nat) : Registers :=
  { self with b := (v &&& 0xFF00) >>> 8, c := v &&& 0x00FF }

-- fn de(&self) -> u16
def Registers.de (self : Registers) : Nat := (self.d <<< 8) ||| self.e

-- fn set_de(&mut self, v: u16)
def Registers.setDe (self : Registers) (v : Nat) : Registers :=
  { self with d := (v &&& 0xFF00) >>> 8, e := v &&& 0x00FF }

-- fn hl(&self) -> u16
def Registers.hl (self : Registers) : Nat := (self.h <<< 8) ||| self.l

-- fn set_hl(&mut self, v: u16)
def Registers.setHl (self : Registers) (v : Nat) : Registers :=
  { self with h := (v &&& 0xFF00) >>> 8, l := v &&& 0x00FF }

-- The AF pair as pushed/popped by PUSH AF / POP AF
def Registers.af (self : Registers) : Nat := (self.a <<< 8) ||| self.f.toU8

-- struct CPU, with the Weak<RefCell<dyn Bus>> replaced by the MotherBoard
-- value it points to.
structure CPU where
  registers : Registers
  is_halted : Bool
  ime : Bool
  sb : Nat
  sc : Nat
  div : Nat
  mb : MotherBoard

-- CPU::new
def CPU.new (mb : MotherBoard) : CPU :=
  { registers := Registers.new, is_halted := false, ime := false
    sb := 0, sc := 0, div := 0, mb := mb }

-- fn read(&self, address: Address) -> u8 (the I/O register router)
def CPU.read (self : CPU) (address : Nat) : Option Nat :=
  if 0xFE00 ≤ address ∧ address ≤ 0xFE9F then self.mb.read address
  else if 0xFEA0 ≤ address ∧ address ≤ 0xFEFF then some 0
  else if 0xFF00 ≤ address ∧ address ≤ 0xFF7F then
    if address = 0xFF00 then self.mb.read address
    else if address = 0xFF01 then some self.sb
    else if address = 0xFF02 then some self.sc
    else if address = 0xFF04 then some self.div
    else if 0xFF05 ≤ address ∧ address ≤ 0xFF07 then self.mb.read address
    else if address = 0xFF0F then self.mb.read address
    else if 0xFF10 ≤ address ∧ address ≤ 0xFF3F then self.mb.read address
    else if 0xFF40 ≤ address ∧ address ≤ 0xFF4B then self.mb.read address
    else some 0
  else if 0xFF80 ≤ address ∧ address ≤ 0xFFFE then self.mb.read address
  else if address = 0xFFFF then self.mb.read address
  else self.mb.read address

-- fn write(&mut self, address: Address, data: u8)
def CPU.write (self : CPU) (address data : Nat) : Option CPU :=
  if 0xFE00 ≤ address ∧ address ≤ 0xFE9F then
    match self.mb.write address data with
    | none => none
    | some mb => some { self with mb := mb }
  else if 0xFEA0 ≤ address ∧ address ≤ 0xFEFF then some self
  else if 0xFF00 ≤ address ∧ address ≤ 0xFF7F then
    if address = 0xFF00 then
      match self.mb.write address data with
      | none => none
      | some mb => some { self with mb := mb }
    else if address = 0xFF01 then some { self with sb := data }
    else if address = 0xFF02 then some { self with sc := data }
    else if address = 0xFF04 then some { self with div := data }
    else if (0xFF05 ≤ address ∧ address ≤ 0xFF07) ∨ address = 0xFF0F ∨
        (0xFF10 ≤ address ∧ address ≤ 0xFF3F) ∨
        (0xFF40 ≤ address ∧ address ≤ 0xFF4B) then
      match self.mb.write address data with
      | none => none
      | some mb => some { self with mb := mb }
    else some self
  else if 0xFF80 ≤ address ∧ address ≤ 0xFFFE then
    match self.mb.write address data with
    | none => none
    | some mb => some { self with mb := mb }
  else if address = 0xFFFF then
    match self.mb.write address data with
    | none => none
    | some mb => some { self with mb := mb }
  else
    match self.mb.write address data with
    | none => none
    | some mb => some { self with mb := mb }

-- fn fetch(&mut self) -> u8
def CPU.fetch (self : CPU) : Option (Nat × CPU) :=
  match self.read self.registers.pc with
  | none => none
  | some byte =>
      some (byte,
        { self with registers := { self.registers with pc := wadd16 self.registers.pc 1 } })

-- fn check_interrupt(&self) -> Option<Peripheral>; the outer Option models
-- the bus reads (they always succeed at 0xFF0F/0xFFFF), the inner one is the
-- source's Option<Peripheral>.
def CPU.checkInterrupt (self : CPU) : Option (Option Peripheral) :=
  match self.read 0xFF0F, self.read 0xFFFF with
  | some ifv, some iev =>
      let interrupts := InterruptFlags.fromU8 ifv
      let enables := InterruptEnables.fromU8 iev
      some
        (if interrupts.v_blank ∧ enables.v_blank then some Peripheral.VBlank
         else if interrupts.lcd_stat ∧ enables.lcd_stat then some Peripheral.LcdStatus
         else if interrupts.timer ∧ enables.timer then some Peripheral.Timer
         else if interrupts.serial ∧ enables.serial then some Peripheral.Serial
         else if interrupts.joypad ∧ enables.joypad then some Peripheral.Joypad
         else none)
  | _, _ => none

-- fn reset_interrupt(&mut self, p: &Peripheral)
def CPU.resetInterrupt (self : CPU) (p : Peripheral) : Option CPU :=
  match self.read 0xFF0F with
  | none => none
  | some v =>
      let data :=
        match p with
        | Peripheral.VBlank => v &&& 0b00011110
        | Peripheral.LcdStatus => v &&& 0b00011101
        | Peripheral.Timer => v &&& 0b00011011
        | Peripheral.Serial => v &&& 0b00010111
        | Peripheral.Joypad => v &&& 0b00001111
      self.write 0xFF0F data

-- fn handle_interruption(&mut self)
def CPU.handleInterruption (self : CPU) : Option CPU :=
  match self.checkInterrupt with
  | none => none
  | some none => some self
  | some (some interrupt) =>
      let self := { self with is_halted := false }
      if !self.ime then some self
      else
        match self.write (wsub16 self.registers.sp 1)
            ((self.registers.pc &&& 0xFF00) >>> 8) with
        | none => none
        | some s1 =>
          match s1.write (wsub16 s1.registers.sp 2) (s1.registers.pc &&& 0x00FF) with
          | none => none
          | some s2 =>
            let s3 :=
              { s2 with
                  registers := { s2.registers with sp := wsub16 s2.registers.sp 2 }
                  ime := false }
            match s3.resetInterrupt interrupt with
            | none => none
            | some s4 =>
                some { s4 with
                        registers := { s4.registers with pc := interrupt.jumpAddress } }

-- fn push_bc_0xc5(&mut self) -> u8
def CPU.pushBc0xc5 (self : CPU) : Option (CPU × Nat) :=
  match self.write (wsub16 self.registers.sp 1) self.registers.b with
  | none => none
  | some s1 =>
    match s1.write (wsub16 s1.registers.sp 2) s1.registers.c with
    | none => none
    | some s2 =>
        some ({ s2 with
                 registers := { s2.registers with sp := wsub16 s2.registers.sp 2 } }, 16)

-- fn pop_bc_0xc1(&mut self) -> u8
def CPU.popBc0xc1 (self : CPU) : Option (CPU × Nat) :=
  match self.read (wadd16 self.registers.sp 1) with
  | none => none
  | some b =>
    match self.read self.registers.sp with
    | none => none
    | some c =>
        some ({ self with
                 registers :=
                   { self.registers with
                       b := b, c := c, sp := wadd16 self.registers.sp 2 } }, 12)

-- fn push_de_0xd5(&mut self) -> u8
def CPU.pushDe0xd5 (self : CPU) : Option (CPU × Nat) :=
  match self.write (wsub16 self.registers.sp 1) self.registers.d with
  | none => none
  | some s1 =>
    match s1.write (wsub16 s1.registers.sp 2) s1.registers.e with
    | none => none
    | some s2 =>
        some ({ s2 with
                 registers := { s2.registers with sp := wsub16 s2.registers.sp 2 } }, 16)

-- fn pop_de_0xd1(&mut self) -> u8
def CPU.popDe0xd1 (self : CPU) : Option (CPU × Nat) :=
  match self.read (wadd16 self.registers.sp 1) with
  | none => none
  | some d =>
    match self.read self.registers.sp with
    | none => none
    | some e =>
        some ({ self with
                 registers :=
                   { self.registers with
                       d := d, e := e, sp := wadd16 self.registers.sp 2 } }, 12)

-- fn push_hl_0xe5(&mut self) -> u8
def CPU.pushHl0xe5 (self : CPU) : Option (CPU × Nat) :=
  match self.write (wsub16 self.registers.sp 1) self.registers.h with
  | none => none
  | some s1 =>
    match s1.write (wsub16 s1.registers.sp 2) s1.registers.l with
    | none => none
    | some s2 =>
        some ({ s2 with
                 registers := { s2.registers with sp := wsub16 s2.registers.sp 2 } }, 16)

-- fn pop_hl_0xe1(&mut self) -> u8
def CPU.popHl0xe1 (self : CPU) : Option (CPU × Nat) :=
  match self.read (wadd16 self.registers.sp 1) with
  | none => none
  | some hval =>
    match self.read self.registers.sp with
    | none => none
    | some lval =>
        some ({ self with
                 registers :=
                   { self.registers with
                       h := hval, l := lval, sp := wadd16 self.registers.sp 2 } }, 12)

-- fn push_af_0xf5(&mut self) -> u8
def CPU.pushAf0xf5 (self : CPU) : Option (CPU × Nat) :=
  match self.write (wsub16 self.registers.sp 1) self.registers.a with
  | none => none
  | some s1 =>
    match s1.write (wsub16 s1.registers.sp 2) s1.registers.f.toU8 with
    | none => none
    | some s2 =>
        some ({ s2 with
                 registers := { s2.registers with sp := wsub16 s2.registers.sp 2 } }, 16)

-- fn pop_af_0xf1(&mut self) -> u8
def CPU.popAf0xf1 (self : CPU) : Option (CPU × Nat) :=
  match self.read (wadd16 self.registers.sp 1) with
  | none => none
  | some a =>
    match self.read self.registers.sp with
    | none => none
    | some fv =>
        some ({ self with
                 registers :=
                   { self.registers with
                       a := a, f := Flags.fromU8 fv
                       sp := wadd16 self.registers.sp 2 } }, 12)

-- fn add_a_d8_0xc6(&mut self) -> u8
def CPU.addAD80xc6 (self : CPU) : Option (CPU × Nat) :=
  match self.fetch with
  | none => none
  | some (d8, s) =>
      let h := calcHalfCarryU8 s.registers.a d8
      let c := calcCarryU8 s.registers.a d8
      let a := (s.registers.a + d8) % 256
      let z := a == 0
      some ({ s with
               registers :=
                 { s.registers with
                     a := a
                     f := { s.registers.f with h := h, c := c, z := z, n := false } } }, 8)

/- Spec-side definitions, written from the specification text, to be compared
   with the definitions embedded from the source. -/

-- The background tile-number address as the claim states it: the sum
-- `rx/8 + SCX/8` is masked to 5 bits (wrapping within the 32-tile row).
def specTileNumberAddressClaimed (base ly rx scx scy : Nat) : Nat :=
  let offset_x := (rx / 8 + scx / 8) % 32
  let offset_y := 32 * (((ly + scy) % 256) / 8)
  base + ((offset_x + offset_y) % 1024)

-- The amended formula: only `SCX/8` is masked to 5 bits; the sum wraps only
-- through the final 10-bit mask.
def specTileNumberAddressAmended (base ly rx scx scy : Nat) : Nat :=
  let offset_x := rx / 8 + (scx / 8) % 32
  let offset_y := 32 * (((ly + scy) % 256) / 8)
  base + ((offset_x + offset_y) % 1024)

-- The TIMA catch-up loop as the claim states it: WHILE the accumulator is at
-- least P, subtract P and increment TIMA once per subtraction (TMA reload and
-- timer-interrupt request on a carry past 0xFF).  Returns (TIMA, accumulator,
-- timer-interrupt-requested).  The fuel given below fully drains the loop.
def specTimaWhileClaimed (tma P : Nat) :
    Nat → Nat → Nat → Bool → Nat × Nat × Bool
  | 0, tima, acc, requested => (tima, acc, requested)
  | fuel + 1, tima, acc, requested =>
      if P ≤ acc then
        if tima = 0xFF then
          specTimaWhileClaimed tma P fuel tma (acc - P) true
        else
          specTimaWhileClaimed tma P fuel (tima + 1) (acc - P) requested
      else (tima, acc, requested)

def specIncrementTimaClaimed (self : Timer) (requested : Bool) (cycle : Nat) :
    Nat × Nat × Bool :=
  let P := self.tac.clock.divide
  let acc := (self.tima_tmp + cycle) % 4294967296
  specTimaWhileClaimed self.tma P (acc / P + 1) self.tima acc requested

-- The amended TIMA step: after adding the cycles, IF the accumulator is at
-- least P it is reduced by P exactly once and TIMA is incremented exactly
-- once (TMA reload and IF bit 2 on a carry past 0xFF).
def specIncrementTimaAmended (self : Timer) (bus : Interruption) (cycle : Nat) :
    Timer × Interruption :=
  let P := self.tac.clock.divide
  let acc := (self.tima_tmp + cycle) % 4294967296
  if acc < P then ({ self with tima_tmp := acc }, bus)
  else if self.tima = 0xFF then
    ({ self with tima := self.tma, tima_tmp := acc - P },
     { bus with interrupts := { bus.interrupts with timer := true } })
  else
    ({ self with tima := self.tima + 1, tima_tmp := acc - P }, bus)

/- Concrete states used by the closed evaluations and witnesses. -/

-- A motherboard with an MBC1 cartridge whose ROM reads as zero, zero RAM and
-- stack, and freshly constructed components.
def mkMotherBoard : MotherBoard :=
  { cartridge := Mbc1.new 2 (fun _ _ => 0) 0
    ram := fun _ => 0
    stack := fun _ => 0
    ppu := PPU.new
    interruption := Interruption.new
    timer := Timer.new
    joypad := JoyPad.new }

def mkCPU : CPU := CPU.new mkMotherBoard

-- IME set, IF = 0b00101 (V-Blank and Timer requested), IE = 0b00100 (only
-- Timer enabled), SP in HRAM.
def c3Cpu : CPU :=
  { mkCPU with
      ime := true
      registers := { Registers.new with sp := 0xFFF0, pc := 0x1234 }
      mb :=
        { mkMotherBoard with
            interruption :=
              { interrupts := InterruptFlags.fromU8 0b00101
                enables := InterruptEnables.fromU8 0b00100 } } }

-- TAC = 0b101: timer running, clock select 01 (262144 Hz, so P = 16).
def cTimer : Timer :=
  { div := 0, div_tmp := 0, tima := 0, tima_tmp := 0, tma := 0
    tac := TAC.fromU8 0b101 }

-- A fresh PPU with SCX = 4 (so SCX mod 8 = 4), on scanline 0.
def cPpu : PPU := { PPU.new with scx := 4 }

-- Index flags of one drain of the background FIFO: position j is discarded
-- (false) while j < discarded, written (true) afterwards.
def blockFlags (k len : Nat) : List Bool :=
  (List.range len).map fun j => decide (k ≤ j)

-- A push-to-LCD trace is k-periodic: the pixel popped at overall position i
-- is written exactly when its position within its 8-pixel batch is at least k.
def TraceOk (k : Nat) (tr : List Bool) : Prop :=
  ∀ i (h : i < tr.length), tr.get ⟨i, h⟩ = decide (k ≤ i % 8)

/- Helper lemmas. -/

theorem updFn_same (f : Nat → Nat) (i v : Nat) : updFn f i v i = v := by
  simp [updFn]

theorem updFn_other (f : Nat → Nat) (i v j : Nat) (h : j ≠ i) :
    updFn f i v j = f j := by
  simp [updFn, h]

theorem land_15_eq_mod (x : Nat) : x &&& 15 = x % 16 :=
  Nat.and_pow_two_sub_one_eq_mod x 4

theorem land_31_eq_mod (x : Nat) : x &&& 31 = x % 32 :=
  Nat.and_pow_two_sub_one_eq_mod x 5

theorem land_255_eq_mod (x : Nat) : x &&& 255 = x % 256 :=
  Nat.and_pow_two_sub_one_eq_mod x 8

theorem land_1023_eq_mod (x : Nat) : x &&& 1023 = x % 1024 :=
  Nat.and_pow_two_sub_one_eq_mod x 10

theorem land_16_bridge : ∀ z < 32, ((z &&& 16 == 16) = decide (15 < z)) := by
  decide

theorem land_256_bridge : ∀ z < 512, ((z &&& 256 == 256) = decide (255 < z)) := by
  decide

theorem calcHalfCarryU8_spec (s r : Nat) :
    calcHalfCarryU8 s r = decide (15 < s % 16 + r % 16) := by
  unfold calcHalfCarryU8
  rw [land_15_eq_mod, land_15_eq_mod]
  exact land_16_bridge _ (by omega)

theorem calcCarryU8_spec (s r : Nat) (hs : s < 256) (hr : r < 256) :
    calcCarryU8 s r = decide (255 < s + r) := by
  unfold calcCarryU8
  rw [land_255_eq_mod, land_255_eq_mod, Nat.mod_eq_of_lt hs, Nat.mod_eq_of_lt hr]
  exact land_256_bridge _ (by omega)

theorem Flags.fromU8_toU8 (f : Flags) : Flags.fromU8 f.toU8 = f := by
  rcases f with ⟨z, n, h, c⟩
  cases z <;> cases n <;> cases h <;> cases c <;> rfl

theorem InterruptFlags.fromU8_toU8_or4 (x : InterruptFlags) :
    InterruptFlags.fromU8 (x.toU8 ||| 0b100) = { x with timer := true } := by
  rcases x with ⟨j, s, t, l, v⟩
  cases j <;> cases s <;> cases t <;> cases l <;> cases v <;> rfl

/- Claim theorems. -/

/-- C1: the claim states that after write(0xFFFF, v) a read(0xFFFF) on the
interrupt controller returns the stored IE byte v regardless of IF.  The code
violates it: `Interruption::read` returns `self.interrupts.into()` (the IF
register) in its 0xFFFF arm, contradicting the comment on that arm and the
field documentation.  On a fresh controller (IF = 0) writing v = 1 to 0xFFFF
reads back 0, not 1. -/
theorem interruption_ie_readback_bug :
    ((Interruption.new.write 0xFFFF 1).bind fun i => i.read 0xFFFF) = some 0 ∧
    (0 : Nat) ≠ 1 :=
  ⟨rfl, by decide⟩

/-- C2: the claim states that a CPU write of any byte b to 0xFF04 (DIV)
resets DIV so that a CPU read of 0xFF04 returns 0.  The code violates it:
`CPU::write` stores the byte in the CPU's shadow `div` field (`self.div =
data`) instead of forwarding to the Timer (whose own 0xFF04 write arm, which
does reset to 0, is unreachable from the CPU), and `CPU::read` returns that
shadow byte.  Writing 0x5A then reading gives 0x5A, not 0. -/
theorem div_write_readback_bug :
    ((mkCPU.write 0xFF04 0x5A).bind fun s => s.read 0xFF04) = some 0x5A ∧
    (0x5A : Nat) ≠ 0 :=
  ⟨rfl, by decide⟩

/-- C3: the claim states that when IME is set, the CPU services the
highest-priority enabled-and-requested interrupt.  In `c3Cpu`, IF = 0b00101
and IE = 0b00100, so the only enabled-and-requested interrupt is Timer
(vector 0x0050); but because `check_interrupt` reads the enables through the
buggy 0xFFFF read (which returns IF), the code services the disabled V-Blank
interrupt and sets PC to 0x0040. -/
theorem interrupt_dispatch_ignores_ie_bug :
    (c3Cpu.handleInterruption.map fun s => s.registers.pc) = some 0x0040 ∧
    c3Cpu.ime = true ∧
    c3Cpu.mb.interruption.interrupts.timer = true ∧
    c3Cpu.mb.interruption.enables.timer = true ∧
    c3Cpu.mb.interruption.enables.v_blank = false ∧
    Peripheral.VBlank.jumpAddress = 0x0040 ∧
    Peripheral.Timer.jumpAddress = 0x0050 ∧
    (0x0040 : Nat) ≠ 0x0050 :=
  ⟨by decide, rfl, rfl, rfl, rfl, rfl, rfl, by decide⟩

/-- C6: the claim states that an MBC1 write to 0x4000-0x5FFF is total for
every data byte.  The code violates it: in ROM-banking mode the match on
`data & 0x3` uses the hexadecimal literals 0x10 and 0x11 (16 and 17, which
`data & 0x3` can never equal) where the binary values 0b10 and 0b11 were
meant, so data bytes with `d & 3 ∈ {2, 3}` fall into `unimplemented!()` and
panic.  Here d = 0x02 on a fresh (ROM-banking mode) MBC1. -/
theorem mbc1_secondary_bank_write_panics :
    (Mbc1.new 2 (fun _ _ => 0) 0).write 0x4000 0x02 = none ∧
    (Mbc1.new 2 (fun _ _ => 0) 0).bank_mode = BankMode.Rom :=
  ⟨rfl, rfl⟩

/-- C7 counterexample: at base 0x9800, LY = 0, rx = 152, SCX = 248, SCY = 0
the code computes 0x9800 + 50 (no 5-bit wrap of the sum rx/8 + SCX/8 = 50),
while the claimed formula wraps the sum to 18 and yields 0x9800 + 18. -/
theorem tile_number_address_counterexample :
    tileNumberAddress 0x9800 0 152 248 0 ≠
      specTileNumberAddressClaimed 0x9800 0 152 248 0 := by
  decide

/-- C7 (amended): the background tile-number fetch address is
base + ((offset_x + offset_y) mod 1024) with offset_x = rx/8 + ((SCX/8) mod 32)
(only the SCX term is masked to 5 bits; the sum is not) and
offset_y = 32 * (((LY + SCY) mod 256) / 8). -/
theorem tile_number_address_amended (base ly rx scx scy : Nat) :
    tileNumberAddress base ly rx scx scy =
      specTileNumberAddressAmended base ly rx scx scy := by
  unfold tileNumberAddress specTileNumberAddressAmended WIDTH_TILE HEIGHT_TILE
  simp only [land_31_eq_mod, land_255_eq_mod, land_1023_eq_mod]

theorem beq_eq_decide (n m : Nat) : (n == m) = decide (n = m) := by
  by_cases h : n = m <;> simp [h]

theorem incrementDiv_preserves (t : Timer) (c : Nat) :
    (t.incrementDiv c).tac = t.tac ∧ (t.incrementDiv c).tima = t.tima ∧
    (t.incrementDiv c).tima_tmp = t.tima_tmp ∧ (t.incrementDiv c).tma = t.tma := by
  unfold Timer.incrementDiv
  dsimp only
  split <;> exact ⟨rfl, rfl, rfl, rfl⟩

theorem incrementTima_amended (s : Timer) (bus : Interruption) (c : Nat)
    (htima : s.tima < 256) :
    s.incrementTima bus c = specIncrementTimaAmended s bus c := by
  unfold Timer.incrementTima specIncrementTimaAmended
  dsimp only
  rw [calcCarryU8_spec s.tima 1 htima (by omega), InterruptFlags.fromU8_toU8_or4]
  by_cases hge : (s.tima_tmp + c) % 4294967296 ≥ s.tac.clock.divide
  · by_cases h255 : s.tima = 255
    · rw [if_pos hge,
        if_pos (show decide (255 < s.tima + 1) = true by simp [h255]),
        if_neg (show ¬((s.tima_tmp + c) % 4294967296 < s.tac.clock.divide) by omega),
        if_pos h255]
    · rw [if_pos hge,
        if_neg (show ¬(decide (255 < s.tima + 1) = true) by
          simp only [decide_eq_true_eq]; omega),
        if_neg (show ¬((s.tima_tmp + c) % 4294967296 < s.tac.clock.divide) by omega),
        if_neg h255, Nat.mod_eq_of_lt (by omega)]
  · rw [if_neg hge,
      if_pos (show (s.tima_tmp + c) % 4294967296 < s.tac.clock.divide by omega)]

/-- C4 counterexample: with TAC = 0b101 (running, clock select 01, so
P = 16), TIMA = 0 and an empty accumulator, advancing by c = 32 = 2·P
increments TIMA only once (the source uses `if`, not `while`), while the
claimed catch-up loop increments it twice. -/
theorem tima_catchup_counterexample :
    (cTimer.tick Interruption.new 32).1.tima = 1 ∧
    (specIncrementTimaClaimed cTimer false 32).1 = 2 ∧
    (1 : Nat) ≠ 2 :=
  ⟨rfl, rfl, by decide⟩

/-- C4 (amended): with the TAC enable bit set, advancing the timer by c adds
c to the TIMA accumulator and then, IF the accumulator is at least P (1024,
16, 64, 256 for clock select 00, 01, 10, 11), subtracts P exactly once and
increments TIMA exactly once; on an increment that would carry TIMA past
0xFF, TIMA is set to TMA and IF bit 2 is set.  At most one increment happens
per advance, even when c ≥ 2·P. -/
theorem tima_advance_amended (t : Timer) (bus : Interruption) (c : Nat)
    (hrun : t.tac.status = TimerStatus.RUNNING) (htima : t.tima < 256) :
    t.tick bus c = specIncrementTimaAmended (t.incrementDiv c) bus c := by
  have hp := incrementDiv_preserves t c
  unfold Timer.tick
  dsimp only
  rw [if_pos (by rw [hp.1]; exact hrun)]
  exact incrementTima_amended _ bus c (by rw [hp.2.1]; omega)

theorem tima_advance_amended_witness :
    cTimer.tac.status = TimerStatus.RUNNING ∧ cTimer.tima < 256 ∧
    cTimer.tick Interruption.new 32 =
      specIncrementTimaAmended (cTimer.incrementDiv 32) Interruption.new 32 :=
  ⟨by decide, by decide,
   tima_advance_amended cTimer Interruption.new 32 (by decide) (by decide)⟩

/-- C5: for every in-range accumulator value and operand, ADD A, d8 computes
A = (r+v) mod 256 and the flags Z = ((r+v) mod 256 == 0), N = 0,
H = ((r mod 16) + (v mod 16) > 15), C = (r+v > 255). -/
theorem add_a_d8_flags (s : CPU) (v : Nat)
    (ha : s.registers.a < 256) (hv : v < 256)
    (hfetch : s.read s.registers.pc = some v) :
    ∃ s2, s.addAD80xc6 = some (s2, 8) ∧
      s2.registers.a = (s.registers.a + v) % 256 ∧
      s2.registers.f.z = decide ((s.registers.a + v) % 256 = 0) ∧
      s2.registers.f.n = false ∧
      s2.registers.f.h = decide (15 < s.registers.a % 16 + v % 16) ∧
      s2.registers.f.c = decide (255 < s.registers.a + v) := by
  unfold CPU.addAD80xc6 CPU.fetch
  rw [hfetch]
  dsimp only
  refine ⟨_, rfl, rfl, ?_, rfl, ?_, ?_⟩
  · exact beq_eq_decide _ 0
  · exact calcHalfCarryU8_spec _ _
  · exact calcCarryU8_spec _ _ ha hv

theorem add_a_d8_flags_witness :
    mkCPU.registers.a < 256 ∧ (0 : Nat) < 256 ∧
    mkCPU.read mkCPU.registers.pc = some 0 ∧
    (∃ s2, mkCPU.addAD80xc6 = some (s2, 8) ∧
      s2.registers.a = (mkCPU.registers.a + 0) % 256 ∧
      s2.registers.f.z = decide ((mkCPU.registers.a + 0) % 256 = 0) ∧
      s2.registers.f.n = false ∧
      s2.registers.f.h = decide (15 < mkCPU.registers.a % 16 + 0 % 16) ∧
      s2.registers.f.c = decide (255 < mkCPU.registers.a + 0)) :=
  ⟨by decide, by decide, by decide,
   add_a_d8_flags mkCPU 0 (by decide) (by decide) (by decide)⟩

/-- C9: every CPU memory access in 0xFEA0-0xFEFF is intercepted before the
bus: reads return 0 and writes leave the whole machine state unchanged and
cannot fail. -/
theorem unused_gap_noop (s : CPU) (a d : Nat)
    (h1 : 0xFEA0 ≤ a) (h2 : a ≤ 0xFEFF) :
    s.read a = some 0 ∧ s.write a d = some s := by
  have noam : ¬(0xFE00 ≤ a ∧ a ≤ 0xFE9F) := by omega
  have hgap : 0xFEA0 ≤ a ∧ a ≤ 0xFEFF := ⟨h1, h2⟩
  constructor
  · unfold CPU.read
    rw [if_neg noam, if_pos hgap]
  · unfold CPU.write
    rw [if_neg noam, if_pos hgap]

theorem unused_gap_noop_witness :
    (0xFEA0 ≤ 0xFEA0 ∧ (0xFEA0 : Nat) ≤ 0xFEFF) ∧
    mkCPU.read 0xFEA0 = some 0 ∧ mkCPU.write 0xFEA0 7 = some mkCPU :=
  ⟨⟨by decide, by decide⟩, unused_gap_noop mkCPU 0xFEA0 7 (by decide) (by decide)⟩

theorem mbWrite_hram (m : MotherBoard) (a d : Nat)
    (h1 : 0xFF80 ≤ a) (h2 : a ≤ 0xFFFE) :
    m.write a d = some { m with stack := updFn m.stack (a - 0xFF80) d } := by
  have nlow : ¬(a ≤ 0x7FFF) ∧ ¬(a ≤ 0x9FFF) ∧ ¬(a ≤ 0xBFFF) ∧ ¬(a ≤ 0xDFFF) ∧
      ¬(a ≤ 0xFDFF) := by omega
  have nio : a ≠ 0xFF0F ∧ a ≠ 0xFFFF ∧ a ≠ 0xFF00 := by omega
  have noam : ¬(0xFE00 ≤ a ∧ a ≤ 0xFE9F) := by omega
  have ntimer : ¬(0xFF05 ≤ a ∧ a ≤ 0xFF07) := by omega
  have nsound : ¬(0xFF10 ≤ a ∧ a ≤ 0xFF3F) := by omega
  have nlcd : ¬(0xFF40 ≤ a ∧ a ≤ 0xFF4B) := by omega
  unfold MotherBoard.write MotherBoard.writeGo
  rw [if_neg nlow.1, if_neg nlow.2.1, if_neg nlow.2.2.1, if_neg nlow.2.2.2.1,
    if_neg nlow.2.2.2.2, if_neg nio.1, if_neg nio.2.1, if_neg noam,
    if_neg nio.2.2, if_neg ntimer, if_neg nsound, if_neg nlcd,
    if_pos (show 0xFF80 ≤ a ∧ a ≤ 0xFFFE from ⟨h1, h2⟩)]

theorem mbRead_hram (m : MotherBoard) (a : Nat)
    (h1 : 0xFF80 ≤ a) (h2 : a ≤ 0xFFFE) :
    m.read a = some (m.stack (a - 0xFF80)) := by
  have nlow : ¬(a ≤ 0x7FFF) ∧ ¬(a ≤ 0x9FFF) ∧ ¬(a ≤ 0xBFFF) ∧ ¬(a ≤ 0xDFFF) ∧
      ¬(a ≤ 0xFDFF) := by omega
  have nio : a ≠ 0xFF0F ∧ a ≠ 0xFFFF ∧ a ≠ 0xFF00 := by omega
  have noam : ¬(0xFE00 ≤ a ∧ a ≤ 0xFE9F) := by omega
  have ntimer : ¬(0xFF05 ≤ a ∧ a ≤ 0xFF07) := by omega
  have nsound : ¬(0xFF10 ≤ a ∧ a ≤ 0xFF3F) := by omega
  have nlcd : ¬(0xFF40 ≤ a ∧ a ≤ 0xFF4B) := by omega
  unfold MotherBoard.read MotherBoard.readGo
  rw [if_neg nlow.1, if_neg nlow.2.1, if_neg nlow.2.2.1, if_neg nlow.2.2.2.1,
    if_neg nlow.2.2.2.2, if_neg nio.1, if_neg nio.2.1, if_neg nio.2.2,
    if_neg noam, if_neg ntimer, if_neg nsound, if_neg nlcd,
    if_pos (show 0xFF80 ≤ a ∧ a ≤ 0xFFFE from ⟨h1, h2⟩)]

theorem cpuWrite_hram (s : CPU) (a d : Nat)
    (h1 : 0xFF80 ≤ a) (h2 : a ≤ 0xFFFE) :
    s.write a d =
      some { s with mb := { s.mb with stack := updFn s.mb.stack (a - 0xFF80) d } } := by
  have noam : ¬(0xFE00 ≤ a ∧ a ≤ 0xFE9F) ∧ ¬(0xFEA0 ≤ a ∧ a ≤ 0xFEFF) ∧
      ¬(0xFF00 ≤ a ∧ a ≤ 0xFF7F) := by omega
  unfold CPU.write
  rw [if_neg noam.1, if_neg noam.2.1, if_neg noam.2.2,
    if_pos (show 0xFF80 ≤ a ∧ a ≤ 0xFFFE from ⟨h1, h2⟩),
    mbWrite_hram s.mb a d h1 h2]

theorem cpuRead_hram (s : CPU) (a : Nat)
    (h1 : 0xFF80 ≤ a) (h2 : a ≤ 0xFFFE) :
    s.read a = some (s.mb.stack (a - 0xFF80)) := by
  have noam : ¬(0xFE00 ≤ a ∧ a ≤ 0xFE9F) ∧ ¬(0xFEA0 ≤ a ∧ a ≤ 0xFEFF) ∧
      ¬(0xFF00 ≤ a ∧ a ≤ 0xFF7F) := by omega
  unfold CPU.read
  rw [if_neg noam.1, if_neg noam.2.1, if_neg noam.2.2,
    if_pos (show 0xFF80 ≤ a ∧ a ≤ 0xFFFE from ⟨h1, h2⟩),
    mbRead_hram s.mb a h1 h2]

theorem pushBc_eq (s : CPU)
    (hlo : 0xFF82 ≤ s.registers.sp) (hhi : s.registers.sp ≤ 0xFFFF) :
    s.pushBc0xc5 = some
      ({ s with
          registers := { s.registers with sp := s.registers.sp - 2 }
          mb := { s.mb with
              stack :=
                updFn (updFn s.mb.stack (s.registers.sp - 1 - 0xFF80) s.registers.b)
                  (s.registers.sp - 2 - 0xFF80) s.registers.c } }, 16) := by
  have e1 : wsub16 s.registers.sp 1 = s.registers.sp - 1 := by unfold wsub16; omega
  have e2 : wsub16 s.registers.sp 2 = s.registers.sp - 2 := by unfold wsub16; omega
  unfold CPU.pushBc0xc5
  rw [e1, cpuWrite_hram s (s.registers.sp - 1) s.registers.b (by omega) (by omega)]
  dsimp only
  rw [e2, cpuWrite_hram _ (s.registers.sp - 2) _ (by omega) (by omega)]
  dsimp only
  rw [e2]

theorem popBc_eq (t : CPU)
    (hlo : 0xFF80 ≤ t.registers.sp) (hhi : t.registers.sp + 1 ≤ 0xFFFE) :
    t.popBc0xc1 = some
      ({ t with
          registers := { t.registers with
            b := t.mb.stack (t.registers.sp + 1 - 0xFF80)
            c := t.mb.stack (t.registers.sp - 0xFF80)
            sp := t.registers.sp + 2 } }, 12) := by
  have a1 : wadd16 t.registers.sp 1 = t.registers.sp + 1 := by unfold wadd16; omega
  have a2 : wadd16 t.registers.sp 2 = t.registers.sp + 2 := by unfold wadd16; omega
  unfold CPU.popBc0xc1
  rw [a1, cpuRead_hram t _ (by omega) (by omega)]
  dsimp only
  rw [cpuRead_hram t _ (by omega) (by omega)]
  dsimp only
  rw [a2]

theorem pushDe_eq (s : CPU)
    (hlo : 0xFF82 ≤ s.registers.sp) (hhi : s.registers.sp ≤ 0xFFFF) :
    s.pushDe0xd5 = some
      ({ s with
          registers := { s.registers with sp := s.registers.sp - 2 }
          mb := { s.mb with
              stack :=
                updFn (updFn s.mb.stack (s.registers.sp - 1 - 0xFF80) s.registers.d)
                  (s.registers.sp - 2 - 0xFF80) s.registers.e } }, 16) := by
  have e1 : wsub16 s.registers.sp 1 = s.registers.sp - 1 := by unfold wsub16; omega
  have e2 : wsub16 s.registers.sp 2 = s.registers.sp - 2 := by unfold wsub16; omega
  unfold CPU.pushDe0xd5
  rw [e1, cpuWrite_hram s (s.registers.sp - 1) s.registers.d (by omega) (by omega)]
  dsimp only
  rw [e2, cpuWrite_hram _ (s.registers.sp - 2) _ (by omega) (by omega)]
  dsimp only
  rw [e2]

theorem popDe_eq (t : CPU)
    (hlo : 0xFF80 ≤ t.registers.sp) (hhi : t.registers.sp + 1 ≤ 0xFFFE) :
    t.popDe0xd1 = some
      ({ t with
          registers := { t.registers with
            d := t.mb.stack (t.registers.sp + 1 - 0xFF80)
            e := t.mb.stack (t.registers.sp - 0xFF80)
            sp := t.registers.sp + 2 } }, 12) := by
  have a1 : wadd16 t.registers.sp 1 = t.registers.sp + 1 := by unfold wadd16; omega
  have a2 : wadd16 t.registers.sp 2 = t.registers.sp + 2 := by unfold wadd16; omega
  unfold CPU.popDe0xd1
  rw [a1, cpuRead_hram t _ (by omega) (by omega)]
  dsimp only
  rw [cpuRead_hram t _ (by omega) (by omega)]
  dsimp only
  rw [a2]

theorem pushHl_eq (s : CPU)
    (hlo : 0xFF82 ≤ s.registers.sp) (hhi : s.registers.sp ≤ 0xFFFF) :
    s.pushHl0xe5 = some
      ({ s with
          registers := { s.registers with sp := s.registers.sp - 2 }
          mb := { s.mb with
              stack :=
                updFn (updFn s.mb.stack (s.registers.sp - 1 - 0xFF80) s.registers.h)
                  (s.registers.sp - 2 - 0xFF80) s.registers.l } }, 16) := by
  have e1 : wsub16 s.registers.sp 1 = s.registers.sp - 1 := by unfold wsub16; omega
  have e2 : wsub16 s.registers.sp 2 = s.registers.sp - 2 := by unfold wsub16; omega
  unfold CPU.pushHl0xe5
  rw [e1, cpuWrite_hram s (s.registers.sp - 1) s.registers.h (by omega) (by omega)]
  dsimp only
  rw [e2, cpuWrite_hram _ (s.registers.sp - 2) _ (by omega) (by omega)]
  dsimp only
  rw [e2]

theorem popHl_eq (t : CPU)
    (hlo : 0xFF80 ≤ t.registers.sp) (hhi : t.registers.sp + 1 ≤ 0xFFFE) :
    t.popHl0xe1 = some
      ({ t with
          registers := { t.registers with
            h := t.mb.stack (t.registers.sp + 1 - 0xFF80)
            l := t.mb.stack (t.registers.sp - 0xFF80)
            sp := t.registers.sp + 2 } }, 12) := by
  have a1 : wadd16 t.registers.sp 1 = t.registers.sp + 1 := by unfold wadd16; omega
  have a2 : wadd16 t.registers.sp 2 = t.registers.sp + 2 := by unfold wadd16; omega
  unfold CPU.popHl0xe1
  rw [a1, cpuRead_hram t _ (by omega) (by omega)]
  dsimp only
  rw [cpuRead_hram t _ (by omega) (by omega)]
  dsimp only
  rw [a2]

theorem pushAf_eq (s : CPU)
    (hlo : 0xFF82 ≤ s.registers.sp) (hhi : s.registers.sp ≤ 0xFFFF) :
    s.pushAf0xf5 = some
      ({ s with
          registers := { s.registers with sp := s.registers.sp - 2 }
          mb := { s.mb with
              stack :=
                updFn (updFn s.mb.stack (s.registers.sp - 1 - 0xFF80) s.registers.a)
                  (s.registers.sp - 2 - 0xFF80) s.registers.f.toU8 } }, 16) := by
  have e1 : wsub16 s.registers.sp 1 = s.registers.sp - 1 := by unfold wsub16; omega
  have e2 : wsub16 s.registers.sp 2 = s.registers.sp - 2 := by unfold wsub16; omega
  unfold CPU.pushAf0xf5
  rw [e1, cpuWrite_hram s (s.registers.sp - 1) s.registers.a (by omega) (by omega)]
  dsimp only
  rw [e2, cpuWrite_hram _ (s.registers.sp - 2) _ (by omega) (by omega)]
  dsimp only
  rw [e2]

theorem popAf_eq (t : CPU)
    (hlo : 0xFF80 ≤ t.registers.sp) (hhi : t.registers.sp + 1 ≤ 0xFFFE) :
    t.popAf0xf1 = some
      ({ t with
          registers := { t.registers with
            a := t.mb.stack (t.registers.sp + 1 - 0xFF80)
            f := Flags.fromU8 (t.mb.stack (t.registers.sp - 0xFF80))
            sp := t.registers.sp + 2 } }, 12) := by
  have a1 : wadd16 t.registers.sp 1 = t.registers.sp + 1 := by unfold wadd16; omega
  have a2 : wadd16 t.registers.sp 2 = t.registers.sp + 2 := by unfold wadd16; omega
  unfold CPU.popAf0xf1
  rw [a1, cpuRead_hram t _ (by omega) (by omega)]
  dsimp only
  rw [cpuRead_hram t _ (by omega) (by omega)]
  dsimp only
  rw [a2]

/-- C10: for every CPU state whose SP-1 and SP-2 lie in HRAM (equivalently
0xFF82 ≤ SP ≤ 0xFFFF), PUSH rr; POP rr restores rr (for rr in
BC, DE, HL, AF) and leaves SP unchanged: PUSH writes the high byte at SP-1
and the low byte at SP-2 and decrements SP by 2, POP reads the low byte at
SP and the high byte at SP+1 and adds 2 to SP. -/
theorem push_pop_roundtrip (s : CPU)
    (hlo : 0xFF82 ≤ s.registers.sp) (hhi : s.registers.sp ≤ 0xFFFF) :
    (∃ s1 s2, s.pushBc0xc5 = some (s1, 16) ∧ s1.popBc0xc1 = some (s2, 12) ∧
       s2.registers.bc = s.registers.bc ∧ s2.registers.sp = s.registers.sp) ∧
    (∃ s1 s2, s.pushDe0xd5 = some (s1, 16) ∧ s1.popDe0xd1 = some (s2, 12) ∧
       s2.registers.de = s.registers.de ∧ s2.registers.sp = s.registers.sp) ∧
    (∃ s1 s2, s.pushHl0xe5 = some (s1, 16) ∧ s1.popHl0xe1 = some (s2, 12) ∧
       s2.registers.hl = s.registers.hl ∧ s2.registers.sp = s.registers.sp) ∧
    (∃ s1 s2, s.pushAf0xf5 = some (s1, 16) ∧ s1.popAf0xf1 = some (s2, 12) ∧
       s2.registers.af = s.registers.af ∧ s2.registers.sp = s.registers.sp) := by
  have hidx : s.registers.sp - 2 + 1 - 0xFF80 = s.registers.sp - 1 - 0xFF80 := by
    omega
  refine ⟨?_, ?_, ?_, ?_⟩
  · refine ⟨_, _, pushBc_eq s hlo hhi,
      popBc_eq _ (by show 0xFF80 ≤ s.registers.sp - 2; omega)
        (by show s.registers.sp - 2 + 1 ≤ 0xFFFE; omega), ?_, ?_⟩
    · dsimp only [Registers.bc]
      rw [hidx,
        updFn_other (updFn s.mb.stack (s.registers.sp - 1 - 0xFF80) s.registers.b)
          (s.registers.sp - 2 - 0xFF80) s.registers.c
          (s.registers.sp - 1 - 0xFF80) (by omega),
        updFn_same, updFn_same]
    · dsimp only
      omega
  · refine ⟨_, _, pushDe_eq s hlo hhi,
      popDe_eq _ (by show 0xFF80 ≤ s.registers.sp - 2; omega)
        (by show s.registers.sp - 2 + 1 ≤ 0xFFFE; omega), ?_, ?_⟩
    · dsimp only [Registers.de]
      rw [hidx,
        updFn_other (updFn s.mb.stack (s.registers.sp - 1 - 0xFF80) s.registers.d)
          (s.registers.sp - 2 - 0xFF80) s.registers.e
          (s.registers.sp - 1 - 0xFF80) (by omega),
        updFn_same, updFn_same]
    · dsimp only
      omega
  · refine ⟨_, _, pushHl_eq s hlo hhi,
      popHl_eq _ (by show 0xFF80 ≤ s.registers.sp - 2; omega)
        (by show s.registers.sp - 2 + 1 ≤ 0xFFFE; omega), ?_, ?_⟩
    · dsimp only [Registers.hl]
      rw [hidx,
        updFn_other (updFn s.mb.stack (s.registers.sp - 1 - 0xFF80) s.registers.h)
          (s.registers.sp - 2 - 0xFF80) s.registers.l
          (s.registers.sp - 1 - 0xFF80) (by omega),
        updFn_same, updFn_same]
    · dsimp only
      omega
  · refine ⟨_, _, pushAf_eq s hlo hhi,
      popAf_eq _ (by show 0xFF80 ≤ s.registers.sp - 2; omega)
        (by show s.registers.sp - 2 + 1 ≤ 0xFFFE; omega), ?_, ?_⟩
    · dsimp only [Registers.af]
      rw [hidx,
        updFn_other (updFn s.mb.stack (s.registers.sp - 1 - 0xFF80) s.registers.a)
          (s.registers.sp - 2 - 0xFF80) s.registers.f.toU8
          (s.registers.sp - 1 - 0xFF80) (by omega),
        updFn_same, updFn_same, Flags.fromU8_toU8]
    · dsimp only
      omega

theorem push_pop_roundtrip_witness :
    (0xFF82 ≤ mkCPU.registers.sp ∧ mkCPU.registers.sp ≤ 0xFFFF) ∧
    ((∃ s1 s2, mkCPU.pushBc0xc5 = some (s1, 16) ∧ s1.popBc0xc1 = some (s2, 12) ∧
       s2.registers.bc = mkCPU.registers.bc ∧ s2.registers.sp = mkCPU.registers.sp) ∧
     (∃ s1 s2, mkCPU.pushDe0xd5 = some (s1, 16) ∧ s1.popDe0xd1 = some (s2, 12) ∧
       s2.registers.de = mkCPU.registers.de ∧ s2.registers.sp = mkCPU.registers.sp) ∧
     (∃ s1 s2, mkCPU.pushHl0xe5 = some (s1, 16) ∧ s1.popHl0xe1 = some (s2, 12) ∧
       s2.registers.hl = mkCPU.registers.hl ∧ s2.registers.sp = mkCPU.registers.sp) ∧
     (∃ s1 s2, mkCPU.pushAf0xf5 = some (s1, 16) ∧ s1.popAf0xf1 = some (s2, 12) ∧
       s2.registers.af = mkCPU.registers.af ∧ s2.registers.sp = mkCPU.registers.sp)) :=
  ⟨⟨by decide, by decide⟩, push_pop_roundtrip mkCPU (by decide) (by decide)⟩

theorem blockFlags_length (k len : Nat) : (blockFlags k len).length = len := by
  simp [blockFlags]

theorem blockFlags_get (k len i : Nat) (h : i < (blockFlags k len).length) :
    (blockFlags k len).get ⟨i, h⟩ = decide (k ≤ i) := by
  simp [blockFlags]

theorem blockFlags_cons_pos (k n : Nat) (hk : 0 < k) :
    blockFlags k (n + 1) = false :: blockFlags (k - 1) n := by
  unfold blockFlags
  rw [List.range_succ_eq_map]
  simp only [List.map_cons, List.map_map]
  refine congrArg₂ List.cons ?_ ?_
  · simp; omega
  · refine List.map_congr_left fun a _ => ?_
    simp only [Function.comp]
    exact decide_eq_decide.mpr (by omega)

theorem blockFlags_cons_zero (n : Nat) :
    blockFlags 0 (n + 1) = true :: blockFlags 0 n := by
  unfold blockFlags
  rw [List.range_succ_eq_map]
  simp only [List.map_cons, List.map_map]
  refine congrArg₂ List.cons ?_ ?_
  · simp
  · refine List.map_congr_left fun a _ => ?_
    simp only [Function.comp]
    exact decide_eq_decide.mpr (by omega)

theorem colors_length (tl : TileLine) : tl.colors.length = 8 := by
  simp [TileLine.colors]

theorem pushToLcdLoop_trace (ly : Nat) (fifoBg : List Pixel) :
    ∀ (fifoSp : List Pixel) (k : Nat) (fb : FrameBuffer) (rx : Nat)
      (trace : List Bool) (res : FrameBuffer × List Pixel × Nat × List Bool),
      PPU.pushToLcdLoop ly fifoBg fifoSp k fb rx trace = some res →
      res.2.2.2 = trace ++ blockFlags k fifoBg.length := by
  induction fifoBg with
  | nil =>
      intro fifoSp k fb rx trace res h
      simp only [PPU.pushToLcdLoop] at h
      cases h
      simp [blockFlags]
  | cons bg rest ih =>
      intro fifoSp k fb rx trace res h
      simp only [PPU.pushToLcdLoop] at h
      by_cases hk : 0 < k
      · rw [if_pos hk] at h
        have htr := ih _ _ _ _ _ _ h
        rw [htr, List.length_cons, blockFlags_cons_pos _ _ hk]
        simp
      · rw [if_neg hk] at h
        split at h
        · exact absurd h (by simp)
        · have htr := ih _ _ _ _ _ _ h
          have hk0 : k = 0 := by omega
          subst hk0
          rw [htr, List.length_cons, blockFlags_cons_zero]
          simp

theorem traceOk_append (k : Nat) (tr : List Bool) (hlen : tr.length % 8 = 0)
    (htr : TraceOk k tr) (hk : k < 8) :
    TraceOk k (tr ++ blockFlags k 8) := by
  intro i h
  have hlen8 : (blockFlags k 8).length = 8 := blockFlags_length k 8
  have hlt : i < tr.length + 8 := by
    have h2 := h
    rw [List.length_append, hlen8] at h2
    exact h2
  by_cases hi : i < tr.length
  · rw [List.get_append_left tr (blockFlags k 8) hi]
    exact htr i hi
  · rw [List.get_append_right' (show tr.length ≤ i by omega) h, blockFlags_get]
    refine decide_eq_decide.mpr ?_
    omega

theorem colors_map_isEmpty (tl : TileLine) (f : Color → Pixel) :
    (tl.colors.map f).isEmpty = false := by
  have hlen : (tl.colors.map f).length = 8 := by
    rw [List.length_map, colors_length]
  cases hmap : tl.colors.map f with
  | nil => rw [hmap] at hlen; simp at hlen
  | cons a l => rfl

theorem scanLineLoop_traceOk (ly scxv : Nat) :
    ∀ (fuel : Nat) (p : PPU) (rx : Nat) (trace : List Bool) (res : PPU × List Bool),
      p.scx = scxv → p.fifo_background = [] →
      trace.length % 8 = 0 → TraceOk (scxv % 8) trace →
      PPU.scanLineLoop ly fuel p rx trace = some res →
      TraceOk (scxv % 8) res.2 := by
  intro fuel
  induction fuel with
  | zero =>
      intro p rx trace res _ _ _ _ h
      simp [PPU.scanLineLoop] at h
  | succ fuel ih =>
      intro p rx trace res hscx hemp hlen htr h
      rw [PPU.scanLineLoop] at h
      by_cases hrx : rx ≥ WIDTH_LCD - 1
      · rw [if_pos hrx] at h
        cases h
        exact htr
      · rw [if_neg hrx] at h
        dsimp only at h
        rw [hemp] at h
        split at h
        · exact absurd h (by simp)
        · split at h
          · exact absurd h (by simp)
          · split at h
            · exact absurd h (by simp)
            · simp only [List.isEmpty_nil, if_true, ite_true, eq_self_iff_true,
                PPU.pushBgFifo, List.nil_append, colors_map_isEmpty,
                Bool.not_false] at h
              rw [hscx] at h
              split at h
              · exact absurd h (by simp)
              · rename_i fb fifoSp2 rx2 trace2 heq2
                have hdrain := pushToLcdLoop_trace ly _ _ _ _ _ _ _ heq2
                dsimp only at hdrain
                rw [List.length_map, colors_length] at hdrain
                refine ih _ rx2 trace2 res ?_ ?_ ?_ ?_ h
                · rfl
                · rfl
                · rw [hdrain, List.length_append, blockFlags_length]
                  omega
                · rw [hdrain]
                  exact traceOk_append _ _ hlen htr (by omega)

/-- C8 (amended): on a visible scanline (background FIFO initially empty, as
it always is when scan_line starts), the discard counter is re-armed at every
8-pixel background batch pushed to the LCD, not just at the left edge: the
pixel popped at overall position i is discarded exactly when i mod 8 <
SCX mod 8, so the first SCX mod 8 pixels of EVERY tile batch are discarded,
and the rest are written to the frame buffer. -/
theorem scanline_discard_amended (p : PPU) (ly : Nat)
    (hempty : p.fifo_background = [])
    (res : PPU × List Bool)
    (hrun : p.scanLine ly = some res) :
    TraceOk (p.scx % 8) res.2 := by
  unfold PPU.scanLine at hrun
  by_cases hly : p.ly ≥ HEIGHT_LCD
  · rw [if_pos hly] at hrun
    cases hrun
    intro i h
    simp at h
  · rw [if_neg hly] at hrun
    exact scanLineLoop_traceOk ly p.scx 200 p 0 [] res rfl hempty (by simp)
      (by intro i h; simp at h) hrun

theorem scanline_discard_amended_witness :
    PPU.new.fifo_background = [] ∧
    ∃ h : (PPU.scanLine PPU.new 0).isSome = true,
      TraceOk (PPU.new.scx % 8) ((PPU.scanLine PPU.new 0).get h).2 :=
  ⟨rfl, by rfl,
   scanline_discard_amended PPU.new 0 rfl _ (Option.some_get (by rfl)).symm⟩

/-- C8 counterexample: with SCX = 4 on scanline 0, the pixel produced at
overall position 8 (the first pixel of the second background batch) is
discarded even though 8 ≥ SCX mod 8 = 4; the claim says only the first
SCX mod 8 pixels of the scanline are discarded and everything produced after
them is written. -/
theorem scanline_discard_counterexample :
    (PPU.scanLine cPpu 0).map (fun r => r.2.get? 8) = some (some false) ∧
    cPpu.scx % 8 = 4 ∧ (4 : Nat) ≤ 8 :=
  ⟨rfl, rfl, by decide⟩


end Rustboy
